import Mathlib

/-!
Shallow embedding of the LAMZU polling-rate switcher (Go sources:
`mouse.go`, `mouse_windows.go`, the game-watcher file, `config.go`,
`main.go`).  Pure logic is translated directly; the Windows HID calls
(`HidD_SetFeature`, `WriteFile`, `CreateFileW`, the SetupDi enumeration)
are modelled by passing their results in explicitly, so every control-flow
decision the Go code makes on those results is reproduced verbatim.
Device paths are ASCII strings in practice; they are modelled as Lean
strings and Go's byte indexing as indexing into the character list.
-/

namespace LamzuAuto

/-! ## Constants (`mouse.go`) -/

def LAMZU_VID : Nat := 0x373E

def LAMZU_PID : Nat := 0x001E

def INTERFACE_NUMBER : Int := 2

def REPORT_SIZE : Nat := 65

/-- `pollingRateMap` from `mouse.go`: the closed rate → device-code table. -/
def pollingRateMap (rate : Int) : Option Nat :=
  if rate = 500 then some 2
  else if rate = 1000 then some 1
  else if rate = 2000 then some 32
  else if rate = 4000 then some 64
  else if rate = 8000 then some 128
  else none

/-! ## SetPollingRate (`mouse_windows.go`, lines 110-170)

The Go method builds a 65-byte zeroed buffer, writes bytes 0..8, calls
`HidD_SetFeature`; on failure it calls `WriteFile`; on a second failure it
returns `fmt.Errorf("failed to write command (both HidD_SetFeature and
WriteFile failed): %v", err)` where `err` is, after reassignment, the
`WriteFile` error.  The handle field is passed to the OS calls but the Go
code itself never branches on it. -/

/-- The command buffer built inside `SetPollingRate`: `make([]byte, 65)`
(zero-filled) with bytes 0..8 assigned. -/
def buildCommand (rateValue : Nat) : List Nat :=
  [0x00, 0x00, 0x00, 0x02, 0x02, 0x01, 0x00, 0x01, rateValue]
    ++ List.replicate (REPORT_SIZE - 9) 0

/-- Which OS transmission mechanisms `SetPollingRate` invoked, in order. -/
inductive Attempt where
  | feature
  | writeOutput
deriving DecidableEq, Repr

/-- Errors the controller can return.  `transmissionFailed` holds the error
value embedded by the final `fmt.Errorf` (the `WriteFile` error, after the
reassignment of `err`); `notConnected` is the "device not connected" error
of `TestConnection`. -/
inductive MouseError where
  | unsupportedRate (rate : Int)
  | transmissionFailed (writeErr : String)
  | notConnected
deriving DecidableEq, Repr

structure SetRateResult where
  buffer : Option (List Nat)
  attempts : List Attempt
  outcome : Except MouseError Unit
deriving Repr

/-- `syscall.InvalidHandle`, the value `Close` stores into the handle
field; modelled as a sentinel. -/
def INVALID_HANDLE : Int := -1

/-- `WindowsMouseController.SetPollingRate`.  `featureRet` and `writeRet`
are the results the OS returns for `HidD_SetFeature` and `WriteFile` on
the given handle (`Except.ok` for a nonzero return value).  Note the Go
code performs no handle-validity check: `handle` is forwarded to the OS
calls (inside `featureRet`/`writeRet`) but never branched on. -/
def setPollingRate (handle : Int) (rate : Int)
    (featureRet : Except String Unit) (writeRet : Except String Unit) :
    SetRateResult :=
  match pollingRateMap rate with
  | none =>
      { buffer := none, attempts := [],
        outcome := .error (.unsupportedRate rate) }
  | some rateValue =>
      let command := buildCommand rateValue
      match featureRet with
      | .ok _ =>
          { buffer := some command, attempts := [.feature],
            outcome := .ok () }
      | .error _ =>
          match writeRet with
          | .ok _ =>
              { buffer := some command,
                attempts := [.feature, .writeOutput],
                outcome := .ok () }
          | .error writeErr =>
              { buffer := some command,
                attempts := [.feature, .writeOutput],
                outcome := .error (.transmissionFailed writeErr) }

/-- `WindowsMouseController.TestConnection` (the only method that checks
the handle against `syscall.InvalidHandle`). -/
def testConnection (handle : Int) : Except MouseError Unit :=
  if handle = INVALID_HANDLE then .error .notConnected else .ok ()

/-- The rate → code table exactly as the spec's sentence writes it
({500:2, 1000:1, 2000:32, 4000:64, 8000:128}); used to compare the code's
encoding against the spec's words. -/
def specRateCode (rate : Int) : Nat :=
  if rate = 500 then 2
  else if rate = 1000 then 1
  else if rate = 2000 then 32
  else if rate = 4000 then 64
  else 128

/-! ## extractInterfaceNumber (`mouse_windows.go`, lines 309-334)

`strings.Index(strings.ToLower(devicePath), "&mi_")`, then the two bytes
of the original path right after the marker, fed to
`strconv.ParseInt(s, 16, 32)`.  Go's `ParseInt` with an explicit base
first picks off a leading `+` or `-` sign and then requires a nonempty
run of base-16 digits (`0-9`, `a-f`, `A-F`); two characters can never
overflow `int32`, so overflow is not modelled. -/

/-- `strings.Index` on character lists: first index at which `pat` occurs
inside `s`, or `none` (Go returns `-1`). -/
def firstIndexOfSub (pat : List Char) : List Char → Option Nat
  | [] => if pat.isPrefixOf ([] : List Char) then some 0 else none
  | c :: t =>
      if pat.isPrefixOf (c :: t) then some 0
      else (firstIndexOfSub pat t).map (· + 1)

/-- A base-16 digit as accepted by Go's `strconv.ParseUint(_, 16, _)`. -/
def isGoHexDigit (c : Char) : Bool :=
  ('0' ≤ c && c ≤ '9') || ('a' ≤ c && c ≤ 'f') || ('A' ≤ c && c ≤ 'F')

def hexDigitVal (c : Char) : Nat :=
  if '0' ≤ c && c ≤ '9' then c.toNat - '0'.toNat
  else if 'a' ≤ c && c ≤ 'f' then c.toNat - 'a'.toNat + 10
  else c.toNat - 'A'.toNat + 10

/-- `strconv.ParseInt(s, 16, 32)` on a short string: Go first picks off
an optional leading `+` or `-` sign, then requires a nonempty run of
hexadecimal digits. -/
def parseGoHexInt : List Char → Option Int
  | [] => none
  | c0 :: rest =>
      let digits := if c0 == '+' || c0 == '-' then rest else c0 :: rest
      if digits.isEmpty then none
      else if digits.all isGoHexDigit then
        let v : Nat := digits.foldl (fun acc c => acc * 16 + hexDigitVal c) 0
        some (if c0 == '-' then -(v : Int) else (v : Int))
      else none

/-- The literal marker searched for in the lowered device path. -/
def miMarker : List Char := ['&', 'm', 'i', '_']

/-- `extractInterfaceNumber` from `mouse_windows.go`: locate `"&mi_"` in
the lowercased path, bounds-check, slice two characters from the original
path, hex-parse; `-1` on any failure. -/
def extractInterfaceNumber (devicePath : String) : Int :=
  let chars := devicePath.data
  match firstIndexOfSub miMarker (chars.map Char.toLower) with
  | none => -1
  | some miIndex =>
      let start := miIndex + 4
      if start + 2 > chars.length then -1
      else
        match parseGoHexInt ((chars.drop start).take 2) with
        | some interfaceNum => interfaceNum
        | none => -1

/-! ## findLAMZUDeviceWindows (`mouse_windows.go`, lines 176-307)

The SetupDi enumeration is modelled as the list of candidates the loop
visits (one per successful `SetupDiEnumDeviceInterfaces`); the loop skips
a candidate when the second `SetupDiGetDeviceInterfaceDetail` call fails
(`detailOk`), when `CreateFileW` fails (`openOk`) or when
`HidD_GetAttributes` returns zero (`attrOk`); otherwise it checks
vendor/product and the parsed interface ordinal, breaking on the first
full match.  The separate fatal error for `SetupDiGetClassDevs` itself
failing happens before any candidate is visited and is outside this
model. -/

structure HidCandidate where
  detailOk : Bool
  openOk : Bool
  attrOk : Bool
  vendorID : Nat
  productID : Nat
  path : String

/-- The full per-candidate acceptance test of the enumeration loop. -/
def acceptCandidate (c : HidCandidate) : Bool :=
  c.detailOk && c.openOk && c.attrOk
    && (c.vendorID == LAMZU_VID) && (c.productID == LAMZU_PID)
    && (extractInterfaceNumber c.path == INTERFACE_NUMBER)

def deviceNotFoundMsg : String :=
  "LAMZU device not found - make sure it's connected and you're running as administrator"

/-- The enumeration loop of `findLAMZUDeviceWindows`: first accepted
candidate wins (the Go code breaks), exhaustion yields the not-found
error. -/
def findLAMZUDeviceWindows : List HidCandidate → Except String (String × Nat × Nat)
  | [] => .error deviceNotFoundMsg
  | c :: rest =>
      if acceptCandidate c then .ok (c.path, c.vendorID, c.productID)
      else findLAMZUDeviceWindows rest

/-! ## Config (`config.go`) and GameWatcher (the watcher file)

Only the fields the watcher logic reads are modelled; `CheckInterval`
(a wall-clock duration) and the Steam metadata are irrelevant to the
per-tick function.  `DetectedGames` and `CustomGames` entries are
represented by their executable names. -/

structure Config where
  defaultPollingRate : Int
  gamePollingRate : Int
  games : List String
  detectedGames : List String
  customGames : List String

/-- `strings.ToLower` restricted to ASCII (process names and game
executables are ASCII), mapped over the characters. -/
def goToLower (s : String) : String :=
  ⟨s.data.map Char.toLower⟩

/-- `GameWatcher.isAnyGameRunning`: build the set of lowercased process
names, then probe it with each entry of the legacy `Games` list
(lowercased).  `DetectedGames`/`CustomGames` are not consulted. -/
def isAnyGameRunning (config : Config) (processes : List String) : Bool :=
  let processSet := processes.map goToLower
  config.games.any (fun game => processSet.contains (goToLower game))

/-- The `Monitoring %d games` count printed by `runAutomator`
(`main.go`): `len(config.Games) + len(config.DetectedGames) +
len(config.CustomGames)`. -/
def monitoredGamesCount (config : Config) : Nat :=
  config.games.length + config.detectedGames.length + config.customGames.length

/-- One tick of the watcher: the new `isGameRunning` flag, the rates
passed to `SetPollingRate` (in order) and the failures that were only
logged. -/
structure TickResult where
  state : Bool
  calls : List Int
  failures : List Int

/-- `GameWatcher.checkProcesses`, given a successfully sampled process
snapshot.  `setRateOk rate` tells whether `mouse.SetPollingRate rate`
succeeded; note the Go code flips `isGameRunning` before the call and
only logs the error. -/
def checkProcesses (config : Config) (isGameRunning : Bool)
    (processes : List String) (setRateOk : Int → Bool) : TickResult :=
  let gameRunning := isAnyGameRunning config processes
  if gameRunning && !isGameRunning then
    { state := true,
      calls := [config.gamePollingRate],
      failures :=
        if setRateOk config.gamePollingRate then []
        else [config.gamePollingRate] }
  else if !gameRunning && isGameRunning then
    { state := false,
      calls := [config.defaultPollingRate],
      failures :=
        if setRateOk config.defaultPollingRate then []
        else [config.defaultPollingRate] }
  else
    { state := isGameRunning, calls := [], failures := [] }

/-- Run a sequence of ticks, numbering them from `n`, collecting every
`SetPollingRate` call as (tick number, rate). -/
def runTicksFrom (config : Config) (setRateOk : Int → Bool) :
    Nat → Bool → List (List String) → Bool × List (Nat × Int)
  | _, st, [] => (st, [])
  | n, st, snap :: rest =>
      let r := checkProcesses config st snap setRateOk
      let tail := runTicksFrom config setRateOk (n + 1) r.state rest
      (tail.1, r.calls.map (fun rate => (n, rate)) ++ tail.2)

/-- Run a snapshot sequence starting at tick 1. -/
def runTicks (config : Config) (setRateOk : Int → Bool)
    (st : Bool) (snaps : List (List String)) : Bool × List (Nat × Int) :=
  runTicksFrom config setRateOk 1 st snaps

/-! ## GameWatcher Start/Stop (the watcher file, lines 28-51)

`Stop` calls `ticker.Stop()` when the ticker exists (safe to repeat) and
then `close(gw.stopCh)`; in Go, closing an already-closed channel panics
with "close of closed channel".  The goroutine and timer scheduling are
not modelled, only the fields `Stop` touches. -/

structure GameWatcherRT where
  tickerSet : Bool
  tickerActive : Bool
  stopChClosed : Bool

/-- `NewGameWatcher`: fresh stop channel, no ticker yet. -/
def newGameWatcher : GameWatcherRT :=
  { tickerSet := false, tickerActive := false, stopChClosed := false }

/-- The field effects of `GameWatcher.Start` (ticker created and
running). -/
def gwStart (gw : GameWatcherRT) : GameWatcherRT :=
  { gw with tickerSet := true, tickerActive := true }

/-- `GameWatcher.Stop`; `Except.error` models a Go runtime panic. -/
def gwStop (gw : GameWatcherRT) : Except String GameWatcherRT :=
  let gw1 := if gw.tickerSet then { gw with tickerActive := false } else gw
  if gw1.stopChClosed then .error "close of closed channel"
  else .ok { gw1 with stopChClosed := true }

/-! # Theorems -/

/-- C2: for every rate in {500, 1000, 2000, 4000, 8000}, the command
encoding inside `SetPollingRate` builds a buffer of exactly 65 bytes,
bytes 0..8 being 00 00 00 02 02 01 00 01 followed by the table code
({500→2, 1000→1, 2000→32, 4000→64, 8000→128}), and bytes 9..64 all
zero. -/
theorem setPollingRate_encodes_rate_table :
    ∀ (handle : Int) (featureRet writeRet : Except String Unit) (rate : Int),
      rate ∈ ([500, 1000, 2000, 4000, 8000] : List Int) →
      ∃ code, pollingRateMap rate = some code
        ∧ (setPollingRate handle rate featureRet writeRet).buffer = some (buildCommand code)
        ∧ (buildCommand code).length = 65
        ∧ (buildCommand code).take 9 = [0x00, 0x00, 0x00, 0x02, 0x02, 0x01, 0x00, 0x01, code]
        ∧ (buildCommand code).drop 9 = List.replicate 56 0
        ∧ code = specRateCode rate := by
  intro handle featureRet writeRet rate hmem
  fin_cases hmem <;>
    refine ⟨_, rfl, ?_, by decide, by decide, by decide, by decide⟩ <;>
    cases featureRet <;>
    first
      | rfl
      | (cases writeRet <;> rfl)

/-- Witness for C2 at rate 2000. -/
theorem setPollingRate_encodes_rate_table_witness :
    ((2000 : Int) ∈ ([500, 1000, 2000, 4000, 8000] : List Int))
    ∧ (∃ code, pollingRateMap 2000 = some code
        ∧ (setPollingRate 0 2000 (Except.ok ()) (Except.ok ())).buffer = some (buildCommand code)
        ∧ (buildCommand code).length = 65
        ∧ (buildCommand code).take 9 = [0x00, 0x00, 0x00, 0x02, 0x02, 0x01, 0x00, 0x01, code]
        ∧ (buildCommand code).drop 9 = List.replicate 56 0
        ∧ code = specRateCode 2000) :=
  ⟨by decide,
   setPollingRate_encodes_rate_table 0 (Except.ok ()) (Except.ok ()) 2000 (by decide)⟩

/-- C4: for every rate outside the table, `SetPollingRate` fails with the
unsupported-rate error, builds no buffer and performs no transmission
attempt. -/
theorem setPollingRate_rejects_unsupported_rate :
    ∀ (handle : Int) (featureRet writeRet : Except String Unit) (rate : Int),
      rate ∉ ([500, 1000, 2000, 4000, 8000] : List Int) →
      pollingRateMap rate = none
      ∧ setPollingRate handle rate featureRet writeRet =
          { buffer := none, attempts := [],
            outcome := Except.error (MouseError.unsupportedRate rate) } := by
  intro handle featureRet writeRet rate hmem
  simp only [List.mem_cons, List.not_mem_nil, or_false, not_or] at hmem
  obtain ⟨h1, h2, h3, h4, h5⟩ := hmem
  have hmap : pollingRateMap rate = none := by
    simp [pollingRateMap, h1, h2, h3, h4, h5]
  refine ⟨hmap, ?_⟩
  unfold setPollingRate
  rw [hmap]

/-- Witness for C4 at rate 3000. -/
theorem setPollingRate_rejects_unsupported_rate_witness :
    ((3000 : Int) ∉ ([500, 1000, 2000, 4000, 8000] : List Int))
    ∧ (pollingRateMap 3000 = none
       ∧ setPollingRate 0 3000 (Except.ok ()) (Except.ok ()) =
           { buffer := none, attempts := [],
             outcome := Except.error (MouseError.unsupportedRate 3000) }) :=
  ⟨by decide,
   setPollingRate_rejects_unsupported_rate 0 (Except.ok ()) (Except.ok ()) 3000 (by decide)⟩

/-- C3 (amended): for a supported rate, `SetPollingRate` tries the
feature-report channel first, falls back to the output-report write only
when the first attempt fails, never tries a third mechanism — but when
both attempts fail the returned error carries only the `WriteFile`
error (the feature-report error is not carried; see the
counterexample). -/
theorem setPollingRate_two_path_fallback :
    ∀ (handle rate : Int) (code : Nat) (fe we : String)
      (writeRet : Except String Unit),
      pollingRateMap rate = some code →
      ((setPollingRate handle rate (Except.ok ()) writeRet).attempts = [Attempt.feature]
        ∧ (setPollingRate handle rate (Except.ok ()) writeRet).outcome = Except.ok ())
      ∧ ((setPollingRate handle rate (Except.error fe) (Except.ok ())).attempts
            = [Attempt.feature, Attempt.writeOutput]
        ∧ (setPollingRate handle rate (Except.error fe) (Except.ok ())).outcome = Except.ok ())
      ∧ ((setPollingRate handle rate (Except.error fe) (Except.error we)).attempts
            = [Attempt.feature, Attempt.writeOutput]
        ∧ (setPollingRate handle rate (Except.error fe) (Except.error we)).outcome
            = Except.error (MouseError.transmissionFailed we))
      ∧ (∀ featureRet writeRet2 : Except String Unit,
          (setPollingRate handle rate featureRet writeRet2).attempts.length ≤ 2) := by
  intro handle rate code fe we writeRet hc
  refine ⟨⟨?_, ?_⟩, ⟨?_, ?_⟩, ⟨?_, ?_⟩, ?_⟩
  all_goals try (intro featureRet writeRet2; cases featureRet <;> cases writeRet2)
  all_goals simp [setPollingRate, hc]

/-- Witness for C3 at rate 1000 with concrete error strings. -/
theorem setPollingRate_two_path_fallback_witness :
    pollingRateMap 1000 = some 1
    ∧ (((setPollingRate 7 1000 (Except.ok ()) (Except.ok ())).attempts = [Attempt.feature]
        ∧ (setPollingRate 7 1000 (Except.ok ()) (Except.ok ())).outcome = Except.ok ())
      ∧ ((setPollingRate 7 1000 (Except.error "fe") (Except.ok ())).attempts
            = [Attempt.feature, Attempt.writeOutput]
        ∧ (setPollingRate 7 1000 (Except.error "fe") (Except.ok ())).outcome = Except.ok ())
      ∧ ((setPollingRate 7 1000 (Except.error "fe") (Except.error "we")).attempts
            = [Attempt.feature, Attempt.writeOutput]
        ∧ (setPollingRate 7 1000 (Except.error "fe") (Except.error "we")).outcome
            = Except.error (MouseError.transmissionFailed "we"))
      ∧ (∀ featureRet writeRet2 : Except String Unit,
          (setPollingRate 7 1000 featureRet writeRet2).attempts.length ≤ 2)) :=
  ⟨rfl, setPollingRate_two_path_fallback 7 1000 1 "fe" "we" (Except.ok ()) rfl⟩

/-- C3 counterexample: the result of `SetPollingRate` is bit-identical
for two different feature-report errors, so the returned
transmission-failed error cannot carry the feature-report error — it
carries only the `WriteFile` error (`err` is reassigned before the final
`fmt.Errorf`). -/
theorem setPollingRate_drops_feature_error :
    setPollingRate 0 1000 (Except.error "feature error A") (Except.error "write error")
      = setPollingRate 0 1000 (Except.error "feature error B") (Except.error "write error")
    ∧ (setPollingRate 0 1000 (Except.error "feature error A") (Except.error "write error")).outcome
      = Except.error (MouseError.transmissionFailed "write error") :=
  ⟨rfl, rfl⟩

/-- C8 (amended): `SetPollingRate` performs no connection-state check at
all — its result is independent of the stored handle, and with the
invalid handle (whose OS calls fail) and a supported rate it still makes
both transmission attempts and fails with the transmission error, not
with not-connected; only `TestConnection` reports the not-connected
error. -/
theorem setPollingRate_no_connection_check :
    ∀ (handle handle2 rate : Int) (featureRet writeRet : Except String Unit)
      (code : Nat) (fe we : String),
      pollingRateMap rate = some code →
      setPollingRate handle rate featureRet writeRet
          = setPollingRate handle2 rate featureRet writeRet
      ∧ testConnection INVALID_HANDLE = Except.error MouseError.notConnected
      ∧ (setPollingRate INVALID_HANDLE rate (Except.error fe) (Except.error we)).attempts
          = [Attempt.feature, Attempt.writeOutput]
      ∧ (setPollingRate INVALID_HANDLE rate (Except.error fe) (Except.error we)).outcome
          = Except.error (MouseError.transmissionFailed we) := by
  intro handle handle2 rate featureRet writeRet code fe we hc
  refine ⟨rfl, rfl, ?_, ?_⟩ <;> (unfold setPollingRate; rw [hc])

/-- Witness for C8 at rate 1000, handles 3 and 5. -/
theorem setPollingRate_no_connection_check_witness :
    pollingRateMap 1000 = some 1
    ∧ (setPollingRate 3 1000 (Except.error "fe") (Except.ok ())
          = setPollingRate 5 1000 (Except.error "fe") (Except.ok ())
      ∧ testConnection INVALID_HANDLE = Except.error MouseError.notConnected
      ∧ (setPollingRate INVALID_HANDLE 1000 (Except.error "fe") (Except.error "we")).attempts
          = [Attempt.feature, Attempt.writeOutput]
      ∧ (setPollingRate INVALID_HANDLE 1000 (Except.error "fe") (Except.error "we")).outcome
          = Except.error (MouseError.transmissionFailed "we")) :=
  ⟨rfl,
   setPollingRate_no_connection_check 3 5 1000 (Except.error "fe") (Except.ok ()) 1 "fe" "we" rfl⟩

/-- C8 counterexample: on the released (invalid) handle with a supported
rate, `SetPollingRate` still makes both transmission attempts and its
outcome is the transmission error, not the not-connected error. -/
theorem setPollingRate_invalid_handle_attempts :
    (setPollingRate INVALID_HANDLE 1000 (Except.error "e1") (Except.error "e2")).attempts
      = [Attempt.feature, Attempt.writeOutput]
    ∧ (setPollingRate INVALID_HANDLE 1000 (Except.error "e1") (Except.error "e2")).outcome
      = Except.error (MouseError.transmissionFailed "e2")
    ∧ Except.error (MouseError.transmissionFailed "e2")
        ≠ (Except.error MouseError.notConnected : Except MouseError Unit) := by
  refine ⟨rfl, rfl, ?_⟩
  intro h
  simp at h

/-- The definitional shape of `extractInterfaceNumber`, with the let
bindings flattened. -/
theorem extractInterfaceNumber_eq (p : String) :
    extractInterfaceNumber p =
      match firstIndexOfSub miMarker (p.data.map Char.toLower) with
      | none => -1
      | some i =>
          if i + 4 + 2 > p.data.length then -1
          else
            match parseGoHexInt ((p.data.drop (i + 4)).take 2) with
            | some n => n
            | none => -1 := rfl

/-- A Go hexadecimal digit is not a sign character. -/
theorem isGoHexDigit_not_sign (c : Char) (h : isGoHexDigit c = true) :
    (c == '+') = false ∧ (c == '-') = false := by
  constructor
  · by_cases hc : c = '+'
    · subst hc
      exact absurd h (by decide)
    · simp [hc]
  · by_cases hc : c = '-'
    · subst hc
      exact absurd h (by decide)
    · simp [hc]

/-- Two hexadecimal digits parse to their base-16 value. -/
theorem parseGoHexInt_two_digits (d1 d2 : Char)
    (h1 : isGoHexDigit d1 = true) (h2 : isGoHexDigit d2 = true) :
    parseGoHexInt [d1, d2] = some ((16 * hexDigitVal d1 + hexDigitVal d2 : Nat) : Int) := by
  obtain ⟨hp1, hm1⟩ := isGoHexDigit_not_sign d1 h1
  simp [parseGoHexInt, hp1, hm1, h1, h2]
  ring

/-- A non-sign, non-digit first character makes the parse fail. -/
theorem parseGoHexInt_bad_first (d1 d2 : Char)
    (hp : (d1 == '+') = false) (hm : (d1 == '-') = false)
    (h1 : isGoHexDigit d1 = false) :
    parseGoHexInt [d1, d2] = none := by
  simp [parseGoHexInt, hp, hm, h1]

/-- A hexadecimal first digit followed by a non-digit makes the parse
fail. -/
theorem parseGoHexInt_bad_second (d1 d2 : Char)
    (h1 : isGoHexDigit d1 = true) (h2 : isGoHexDigit d2 = false) :
    parseGoHexInt [d1, d2] = none := by
  obtain ⟨hp1, hm1⟩ := isGoHexDigit_not_sign d1 h1
  simp [parseGoHexInt, hp1, hm1, h1, h2]

/-- C6 (amended): interface-ordinal extraction is a pure function of the
device path: it locates `"&mi_"` case-insensitively and hex-parses the
two characters after it; marker absent, fewer than two characters
following, or characters rejected by the parse give the sentinel `-1`,
which never equals the required ordinal 2.  The parse is Go's
`strconv.ParseInt(_, 16, 32)`, which also accepts a leading sign, so the
malformed-digit clause has an exception (see the counterexample). -/
theorem extractInterfaceNumber_spec :
    (∀ p : String, firstIndexOfSub miMarker (p.data.map Char.toLower) = none →
        extractInterfaceNumber p = -1)
    ∧ (∀ (p : String) (i : Nat),
        firstIndexOfSub miMarker (p.data.map Char.toLower) = some i →
        i + 4 + 2 > p.data.length → extractInterfaceNumber p = -1)
    ∧ (∀ (p : String) (i : Nat) (d1 d2 : Char) (rest : List Char),
        firstIndexOfSub miMarker (p.data.map Char.toLower) = some i →
        p.data.drop (i + 4) = d1 :: d2 :: rest →
        isGoHexDigit d1 = true → isGoHexDigit d2 = true →
        extractInterfaceNumber p = ((16 * hexDigitVal d1 + hexDigitVal d2 : Nat) : Int))
    ∧ (∀ (p : String) (i : Nat) (d1 d2 : Char) (rest : List Char),
        firstIndexOfSub miMarker (p.data.map Char.toLower) = some i →
        p.data.drop (i + 4) = d1 :: d2 :: rest →
        (d1 == '+') = false → (d1 == '-') = false → isGoHexDigit d1 = false →
        extractInterfaceNumber p = -1)
    ∧ (∀ (p : String) (i : Nat) (d1 d2 : Char) (rest : List Char),
        firstIndexOfSub miMarker (p.data.map Char.toLower) = some i →
        p.data.drop (i + 4) = d1 :: d2 :: rest →
        isGoHexDigit d1 = true → isGoHexDigit d2 = false →
        extractInterfaceNumber p = -1)
    ∧ extractInterfaceNumber "\\\\?\\HID#VID_373E&PID_001E&MI_02&Col01#x" = 2
    ∧ ((-1 : Int) = INTERFACE_NUMBER → False) := by
  have hlen : ∀ (l : List Char) (i : Nat) (d1 d2 : Char) (rest : List Char),
      l.drop (i + 4) = d1 :: d2 :: rest → ¬ (i + 4 + 2 > l.length) := by
    intro l i d1 d2 rest hdrop
    have hl := congrArg List.length hdrop
    simp [List.length_drop] at hl
    omega
  refine ⟨?_, ?_, ?_, ?_, ?_, by decide, by decide⟩
  · intro p hfind
    simp only [extractInterfaceNumber_eq, hfind]
  · intro p i hfind hgt
    simp only [extractInterfaceNumber_eq, hfind]
    rw [if_pos hgt]
  · intro p i d1 d2 rest hfind hdrop h1 h2
    simp only [extractInterfaceNumber_eq, hfind]
    rw [if_neg (hlen p.data i d1 d2 rest hdrop), hdrop]
    simp [List.take, parseGoHexInt_two_digits d1 d2 h1 h2]
  · intro p i d1 d2 rest hfind hdrop hp hm h1
    simp only [extractInterfaceNumber_eq, hfind]
    rw [if_neg (hlen p.data i d1 d2 rest hdrop), hdrop]
    simp [List.take, parseGoHexInt_bad_first d1 d2 hp hm h1]
  · intro p i d1 d2 rest hfind hdrop h1 h2
    simp only [extractInterfaceNumber_eq, hfind]
    rw [if_neg (hlen p.data i d1 d2 rest hdrop), hdrop]
    simp [List.take, parseGoHexInt_bad_second d1 d2 h1 h2]

/-- Witness for C6: the hex-digit branch at path `"abc&mi_0a"` (marker at
index 3, digits `0a`, ordinal 10). -/
theorem extractInterfaceNumber_spec_witness :
    firstIndexOfSub miMarker ("abc&mi_0a".data.map Char.toLower) = some 3
    ∧ "abc&mi_0a".data.drop 7 = ['0', 'a']
    ∧ isGoHexDigit '0' = true
    ∧ isGoHexDigit 'a' = true
    ∧ extractInterfaceNumber "abc&mi_0a" = ((16 * hexDigitVal '0' + hexDigitVal 'a' : Nat) : Int) :=
  ⟨by decide, by decide, by decide, by decide,
   extractInterfaceNumber_spec.2.2.1 "abc&mi_0a" 3 '0' 'a' []
     (by decide) (by decide) (by decide) (by decide)⟩

/-- C6 counterexample: after the marker, the characters `+2` are not two
hexadecimal digits, yet Go's sign-accepting parse yields ordinal 2 — not
the "unknown" sentinel — so such a candidate is not excluded. -/
theorem extractInterfaceNumber_accepts_signed_hex :
    extractInterfaceNumber "\\\\?\\hid#vid_373e&pid_001e&mi_+2&col01#x" = 2
    ∧ isGoHexDigit '+' = false
    ∧ acceptCandidate
        { detailOk := true, openOk := true, attrOk := true,
          vendorID := 0x373E, productID := 0x001E,
          path := "\\\\?\\hid#vid_373e&pid_001e&mi_+2&col01#x" } = true := by
  refine ⟨by decide, by decide, by decide⟩

/-- C5: the locator accepts only candidates with vendor 0x373E, product
0x001E and parsed interface ordinal 2 (a matching vendor/product pair
with a different ordinal is excluded), stops at the first accepted
candidate, and reports the not-found error when enumeration exhausts
without acceptance. -/
theorem findLAMZU_first_matching_interface :
    (∀ c : HidCandidate, c.vendorID = LAMZU_VID → c.productID = LAMZU_PID →
        extractInterfaceNumber c.path ≠ INTERFACE_NUMBER → acceptCandidate c = false)
    ∧ (∀ c : HidCandidate, acceptCandidate c = true →
        c.vendorID = LAMZU_VID ∧ c.productID = LAMZU_PID
          ∧ extractInterfaceNumber c.path = INTERFACE_NUMBER)
    ∧ (∀ l : List HidCandidate,
        findLAMZUDeviceWindows l =
          match l.find? acceptCandidate with
          | some c => Except.ok (c.path, c.vendorID, c.productID)
          | none => Except.error deviceNotFoundMsg) := by
  refine ⟨?_, ?_, ?_⟩
  · intro c h1 h2 h3
    simp [acceptCandidate, h3]
  · intro c hacc
    simp only [acceptCandidate, Bool.and_eq_true, beq_iff_eq] at hacc
    exact ⟨hacc.1.1.2, hacc.1.2, hacc.2⟩
  · intro l
    induction l with
    | nil => rfl
    | cons c rest ih =>
        cases h : acceptCandidate c with
        | true => simp [findLAMZUDeviceWindows, List.find?_cons, h]
        | false => simp [findLAMZUDeviceWindows, List.find?_cons, h, ih]

/-- A LAMZU candidate sitting on interface 1: correct vendor/product,
wrong ordinal. -/
def candWrongInterface : HidCandidate :=
  { detailOk := true, openOk := true, attrOk := true,
    vendorID := 0x373E, productID := 0x001E,
    path := "\\\\?\\hid#vid_373e&pid_001e&mi_01&col01#x" }

/-- The LAMZU candidate on interface 2. -/
def candTargetInterface : HidCandidate :=
  { detailOk := true, openOk := true, attrOk := true,
    vendorID := 0x373E, productID := 0x001E,
    path := "\\\\?\\hid#vid_373e&pid_001e&mi_02&col01#x" }

/-- Witness for C5: the interface-1 candidate is rejected even though
vendor and product match; a two-candidate enumeration therefore settles
on the interface-2 candidate. -/
theorem findLAMZU_first_matching_interface_witness :
    acceptCandidate candWrongInterface = false
    ∧ findLAMZUDeviceWindows [candWrongInterface, candTargetInterface]
        = Except.ok (candTargetInterface.path, candTargetInterface.vendorID,
                     candTargetInterface.productID)
    ∧ findLAMZUDeviceWindows [candWrongInterface] = Except.error deviceNotFoundMsg := by
  refine ⟨findLAMZU_first_matching_interface.1 candWrongInterface rfl rfl (by decide), ?_, ?_⟩
  · rw [findLAMZU_first_matching_interface.2.2 [candWrongInterface, candTargetInterface]]
    rfl
  · rw [findLAMZU_first_matching_interface.2.2 [candWrongInterface]]
    rfl

/-- C1: a watcher tick issues a `SetPollingRate` call exactly when the
game-presence test differs from the stored flag: presence while idle
issues the game rate and raises the flag, absence while active issues
the default rate and clears it, and anything else issues nothing; on the
configured games {cs2.exe} the four-snapshot sequence of the spec issues
exactly two calls, the game rate on tick 2 and the default rate on
tick 4. -/
theorem checkProcesses_edge_triggered :
    (∀ (config : Config) (st : Bool) (snapshot : List String) (setRateOk : Int → Bool),
        (checkProcesses config st snapshot setRateOk).calls ≠ []
          ↔ isAnyGameRunning config snapshot ≠ st)
    ∧ (∀ (config : Config) (snapshot : List String) (setRateOk : Int → Bool),
        isAnyGameRunning config snapshot = true →
        (checkProcesses config false snapshot setRateOk).state = true
        ∧ (checkProcesses config false snapshot setRateOk).calls = [config.gamePollingRate])
    ∧ (∀ (config : Config) (snapshot : List String) (setRateOk : Int → Bool),
        isAnyGameRunning config snapshot = false →
        (checkProcesses config true snapshot setRateOk).state = false
        ∧ (checkProcesses config true snapshot setRateOk).calls = [config.defaultPollingRate])
    ∧ (∀ (config : Config) (st : Bool) (snapshot : List String) (setRateOk : Int → Bool),
        isAnyGameRunning config snapshot = st →
        (checkProcesses config st snapshot setRateOk).calls = [])
    ∧ (∀ (defaultRate gameRate : Int) (det cus : List String) (setRateOk : Int → Bool),
        runTicks ⟨defaultRate, gameRate, ["cs2.exe"], det, cus⟩ setRateOk false
            [["explorer.exe"], ["explorer.exe", "cs2.exe"],
             ["explorer.exe", "cs2.exe"], ["explorer.exe"]]
          = (false, [(2, gameRate), (4, defaultRate)])) := by
  refine ⟨?_, ?_, ?_, ?_, ?_⟩
  · intro config st snapshot setRateOk
    cases hg : isAnyGameRunning config snapshot <;> cases st <;>
      simp [checkProcesses, hg]
  · intro config snapshot setRateOk hg
    constructor <;> simp [checkProcesses, hg]
  · intro config snapshot setRateOk hg
    constructor <;> simp [checkProcesses, hg]
  · intro config st snapshot setRateOk hg
    cases st <;> simp [checkProcesses, hg]
  · intro defaultRate gameRate det cus setRateOk
    rfl

/-- Witness for C1: the concrete four-snapshot run with default rate
1000 and game rate 8000. -/
theorem checkProcesses_edge_triggered_witness :
    runTicks ⟨1000, 8000, ["cs2.exe"], [], []⟩ (fun _ => true) false
        [["explorer.exe"], ["explorer.exe", "cs2.exe"],
         ["explorer.exe", "cs2.exe"], ["explorer.exe"]]
      = (false, [(2, 8000), (4, 1000)])
    ∧ isAnyGameRunning ⟨1000, 8000, ["cs2.exe"], [], []⟩ ["explorer.exe", "cs2.exe"] = true
    ∧ (checkProcesses ⟨1000, 8000, ["cs2.exe"], [], []⟩ false ["explorer.exe", "cs2.exe"]
          (fun _ => true)).state = true
    ∧ (checkProcesses ⟨1000, 8000, ["cs2.exe"], [], []⟩ false ["explorer.exe", "cs2.exe"]
          (fun _ => true)).calls = [(8000 : Int)] :=
  ⟨checkProcesses_edge_triggered.2.2.2.2 1000 8000 [] [] (fun _ => true),
   by decide,
   (checkProcesses_edge_triggered.2.1 ⟨1000, 8000, ["cs2.exe"], [], []⟩
      ["explorer.exe", "cs2.exe"] (fun _ => true) (by decide)).1,
   (checkProcesses_edge_triggered.2.1 ⟨1000, 8000, ["cs2.exe"], [], []⟩
      ["explorer.exe", "cs2.exe"] (fun _ => true) (by decide)).2⟩

/-- C7: the watcher flag after a tick equals the presence test outcome
no matter whether `SetPollingRate` succeeded — the tick's state and
calls are independent of the transmission result, and a failed call is
exactly logged (the tick returns normally either way, so the loop
continues). -/
theorem checkProcesses_updates_state_on_failure :
    ∀ (config : Config) (st : Bool) (snapshot : List String) (setRateOk : Int → Bool),
      (checkProcesses config st snapshot setRateOk).state = isAnyGameRunning config snapshot
      ∧ (checkProcesses config st snapshot setRateOk).state
          = (checkProcesses config st snapshot (fun _ => true)).state
      ∧ (checkProcesses config st snapshot setRateOk).calls
          = (checkProcesses config st snapshot (fun _ => true)).calls
      ∧ (checkProcesses config st snapshot setRateOk).failures
          = (checkProcesses config st snapshot setRateOk).calls.filter
              (fun rate => !(setRateOk rate)) := by
  intro config st snapshot setRateOk
  have hfilter : ∀ x : Int,
      (if setRateOk x = true then ([] : List Int) else [x])
        = List.filter (fun rate => !(setRateOk rate)) [x] := by
    intro x
    cases hok : setRateOk x <;> simp [hok]
  refine ⟨?_, ?_, ?_, ?_⟩ <;>
    cases hg : isAnyGameRunning config snapshot <;> cases st <;>
      simp [checkProcesses, hg, hfilter]

/-- The default-config entry set with an empty legacy `Games` list and
one custom game: the startup banner counts one monitored game, but the
presence test can never fire. -/
def customOnlyConfig : Config :=
  { defaultPollingRate := 1000, gamePollingRate := 8000,
    games := [], detectedGames := [], customGames := ["cs2.exe"] }

/-- C10: the presence test ranges only over the legacy `Games` list —
it is invariant under the `DetectedGames`/`CustomGames` fields and holds
exactly when a legacy game name matches the snapshot case-insensitively;
the startup banner nevertheless counts all three lists, so a config
whose only entry is a custom game reports one monitored game while no
snapshot can ever trigger a rate change from idle. -/
theorem isAnyGameRunning_only_legacy_games :
    (∀ (d g : Int) (games det cus det2 cus2 snapshot : List String),
        isAnyGameRunning ⟨d, g, games, det, cus⟩ snapshot
          = isAnyGameRunning ⟨d, g, games, det2, cus2⟩ snapshot)
    ∧ (∀ (config : Config) (snapshot : List String),
        isAnyGameRunning config snapshot = true
          ↔ ∃ game ∈ config.games, (snapshot.map goToLower).contains (goToLower game) = true)
    ∧ (∀ config : Config, monitoredGamesCount config
          = config.games.length + config.detectedGames.length + config.customGames.length)
    ∧ (∀ (snapshot : List String) (setRateOk : Int → Bool),
        isAnyGameRunning customOnlyConfig snapshot = false
        ∧ (checkProcesses customOnlyConfig false snapshot setRateOk).calls = []
        ∧ (checkProcesses customOnlyConfig false snapshot setRateOk).state = false)
    ∧ monitoredGamesCount customOnlyConfig = 1 := by
  refine ⟨fun d g games det cus det2 cus2 snapshot => rfl, ?_, fun config => rfl, ?_, rfl⟩
  · intro config snapshot
    simp [isAnyGameRunning, List.any_eq_true]
  · intro snapshot setRateOk
    exact ⟨rfl, rfl, rfl⟩

/-- C9 (amended): `Stop` is safe exactly once — with the stop channel
still open it stops the ticker (when one exists) and closes the channel,
but a second `Stop` panics closing the already-closed channel, so `Stop`
is not idempotent. -/
theorem gwStop_once :
    ∀ gw : GameWatcherRT, gw.stopChClosed = false →
      gwStop gw = Except.ok { tickerSet := gw.tickerSet,
                              tickerActive := (!gw.tickerSet && gw.tickerActive),
                              stopChClosed := true }
      ∧ (gwStop gw).bind gwStop = Except.error "close of closed channel" := by
  intro gw h
  obtain ⟨ts, ta, sc⟩ := gw
  simp only at h
  subst h
  cases ts <;> cases ta <;> exact ⟨rfl, rfl⟩

/-- Witness for C9 applied to a freshly started watcher. -/
theorem gwStop_once_witness :
    (gwStart newGameWatcher).stopChClosed = false
    ∧ (gwStop (gwStart newGameWatcher)
          = Except.ok { tickerSet := (gwStart newGameWatcher).tickerSet,
                        tickerActive := (!(gwStart newGameWatcher).tickerSet
                          && (gwStart newGameWatcher).tickerActive),
                        stopChClosed := true }
      ∧ (gwStop (gwStart newGameWatcher)).bind gwStop
          = Except.error "close of closed channel") :=
  ⟨rfl, gwStop_once (gwStart newGameWatcher) rfl⟩

/-- C9 counterexample: starting the watcher and calling `Stop` twice
reaches the Go runtime panic "close of closed channel" — the second
`Stop` is not a safe no-op. -/
theorem gwStop_twice_panics :
    (gwStop (gwStart newGameWatcher)).bind gwStop
      = Except.error "close of closed channel" := rfl

end LamzuAuto
